import Mathlib

/-!
Verification of mail2pr (src/mail2pr/utils.py, src/mail2pr/__init__.py).
Python strings are modelled as Lean strings, operated on as lists of
characters via String.data.
-/

namespace Mail2PR

/-- Whitespace characters removed by Python str.strip and str.lstrip when
called with no argument, restricted to the ASCII range relevant here. -/
def pyWhitespace : List Char := [' ', '\t', '\n', '\r', '\x0b', '\x0c']

/-- Python s.lstrip(chars): drop leading characters drawn from the given set. -/
def lstripSet (cs : List Char) (l : List Char) : List Char :=
  l.dropWhile (fun c => c ∈ cs)

/-- Python s.rstrip(chars): drop trailing characters drawn from the given set. -/
def rstripSet (cs : List Char) (l : List Char) : List Char :=
  (l.reverse.dropWhile (fun c => c ∈ cs)).reverse

/-- Python s.lstrip() with no argument. -/
def pyLstrip (l : List Char) : List Char := lstripSet pyWhitespace l

/-- Python s.strip() with no argument. -/
def pyStrip (l : List Char) : List Char := rstripSet pyWhitespace (pyLstrip l)

/-- The remainder matched by a final greedy dot-plus followed by the
end-anchor in re.match: the dot does not match a newline, and the end-anchor
also matches just before a single final newline. Returns the matched group. -/
def dotPlusToEnd (l : List Char) : Option (List Char) :=
  if l ≠ [] ∧ '\n' ∉ l then some l
  else if l.getLast? = some '\n' ∧ l.dropLast ≠ [] ∧ '\n' ∉ l.dropLast then
    some l.dropLast
  else none

/-- re.match of the bracket-group pattern used in slugify_subject: an opening
square bracket, one or more characters other than a closing bracket (hence:
up to the first closing bracket), the closing bracket, then the captured
remainder (one or more characters). Returns the captured group on success. -/
def bracketMatch (l : List Char) : Option (List Char) :=
  match l with
  | '[' :: t =>
    match t.dropWhile (fun c => c ≠ ']') with
    | ']' :: after =>
      if t.takeWhile (fun c => c ≠ ']') ≠ [] then dotPlusToEnd after else none
    | _ => none
  | _ => none

/-- The character class kept verbatim by slugify_subject: digits, ASCII
letters, and the dot. Everything else becomes a dash. -/
def isAlnumDot (c : Char) : Bool :=
  ('0' ≤ c && c ≤ '9') || ('a' ≤ c && c ≤ 'z') || ('A' ≤ c && c ≤ 'Z') || c == '.'

/-- re.sub of two-or-more dashes by a single dash: every maximal run of at
least two dashes collapses to one (implemented keeping the last dash of each
run, which yields the same string). -/
def collapseDashes : List Char → List Char
  | [] => []
  | c :: t =>
    let r := collapseDashes t
    if c = '-' ∧ r.head? = some '-' then r else c :: r

/-- re.sub of a start-anchored dash by the empty string: removes one leading
dash. -/
def dropLeadingDash : List Char → List Char
  | '-' :: t => t
  | l => l

/-- re.sub of an end-anchored dash by the empty string: removes one trailing
dash (no newline can remain at this stage, so the end-anchor is the true
end). -/
def dropTrailingDash (l : List Char) : List Char :=
  (dropLeadingDash l.reverse).reverse

/-- Embedding of slugify_subject from src/mail2pr/utils.py. Note that the
Python calls s.lstrip with a string argument treat it as a character set. -/
def slugify_subject (s : String) : String :=
  let l0 := pyStrip s.data
  let l1 := pyLstrip (lstripSet ['R', 'e', ':'] l0)
  let l2 := pyLstrip (lstripSet ['r', 'e', ':'] l1)
  let l3 := pyLstrip (lstripSet [':'] l2)
  let l4 := match bracketMatch l3 with
    | some g => pyStrip g
    | none => l3
  let l5 := l4.map (fun c => if isAlnumDot c then c else '-')
  String.mk (dropTrailingDash (dropLeadingDash (collapseDashes l5)))

/-- Modelled from the spec: trim_subject is imported from mail2pr.utils in
src/mail2pr/__init__.py (line 11) but its definition is absent from
src/mail2pr/utils.py. Per the spec, normalizeSubject strips a leading
case-insensitive Re: token; this is its single-pass token strip, trimming
surrounding whitespace afterwards. -/
def stripReTokenOnce (l : List Char) : List Char :=
  match l with
  | r :: e :: ':' :: t =>
    if (r = 'R' ∨ r = 'r') ∧ (e = 'E' ∨ e = 'e') then pyStrip t else l
  | _ => l

/-- Modelled from the spec: the single-pass strip of one leading bracketed
tag group performed by the missing trim_subject, trimming surrounding
whitespace afterwards; a bracket group has at least one character between
the brackets, mirroring the bracket pattern of slugify_subject. -/
def stripBracketGroupOnce (l : List Char) : List Char :=
  match l with
  | '[' :: t =>
    match t.dropWhile (fun c => c ≠ ']') with
    | ']' :: after =>
      if t.takeWhile (fun c => c ≠ ']') ≠ [] then pyStrip after else '[' :: t
    | _ => '[' :: t
  | _ => l

/-- Modelled from the spec: trim_subject (the spec's normalizeSubject) strips
a leading case-insensitive Re: token and a leading bracketed tag group,
trimming surrounding whitespace after each strip; stripping is single-pass,
not recursive. The definition is absent from src/mail2pr/utils.py although
src/mail2pr/__init__.py imports and uses it. -/
def trim_subject (s : String) : String :=
  String.mk (stripBracketGroupOnce (stripReTokenOnce (pyStrip s.data)))

/-- The Mail envelope (class Mail in src/mail2pr/__init__.py), reduced to the
raw Subject header, the only field the claims concern. -/
structure Mail where
  subject_header : String

/-- The Mail.subject property: trim_subject applied to the raw header. -/
def Mail.subject (m : Mail) : String := trim_subject m.subject_header

/-- The Mail.slug property: slugify_subject applied to the raw header. -/
def Mail.slug (m : Mail) : String := slugify_subject m.subject_header

/-- Worktree branch naming from Worktree.init: the fixed prefix followed
directly by the mail slug, with no fallback when the slug is empty. -/
def branch_name (m : Mail) : String := "ml2pr/" ++ m.slug

/-- The four external tool invocations performed by Worktree.setup, in
source order. -/
inductive Step
  | fetch
  | branch
  | worktreeAdd
  | patchApply
deriving DecidableEq

/-- The exception kinds visible at the top level: the three exception
classes defined in src/mail2pr/__init__.py plus the unwrapped subprocess
error (the branch step runs outside any try block). -/
inductive ErrKind
  | GitFetchFailed
  | GitWorktreeAddFailed
  | GitAMFailed
  | ToolError
deriving DecidableEq

/-- Embedding of Worktree.setup (src/mail2pr/__init__.py lines 85 to 106).
The tool oracle says whether each sh invocation succeeds; the result is the
list of steps actually invoked, in order, paired with the exception raised,
if any. The worktree-add except clause in the source raises GitFetchFailed,
reproduced here verbatim. -/
def Worktree.setup (tool : Step → Bool) : List Step × Option ErrKind :=
  if tool Step.fetch = false then ([Step.fetch], some ErrKind.GitFetchFailed)
  else if tool Step.branch = false then
    ([Step.fetch, Step.branch], some ErrKind.ToolError)
  else if tool Step.worktreeAdd = false then
    ([Step.fetch, Step.branch, Step.worktreeAdd], some ErrKind.GitFetchFailed)
  else if tool Step.patchApply = false then
    ([Step.fetch, Step.branch, Step.worktreeAdd, Step.patchApply],
      some ErrKind.GitAMFailed)
  else
    ([Step.fetch, Step.branch, Step.worktreeAdd, Step.patchApply], none)

/-- The two actions of Worktree.cleanup, in source order. -/
inductive CleanupAction
  | rmtreeScratch
  | worktreePrune
deriving DecidableEq

/-- Embedding of Worktree.cleanup (src/mail2pr/__init__.py lines 108 to 110):
recursively remove the scratch directory, then prune stale worktree
registrations. -/
def Worktree.cleanup : List CleanupAction := [CleanupAction.rmtreeScratch, CleanupAction.worktreePrune]

/-- Observable events of main for a constructed session: the setup call, the
interactive command loop, the printing of a caught exception, the cleanup
call made by the context-manager exit, and the final completion marker. -/
inductive MainEvent
  | setupCall
  | cmdloopRun
  | printError
  | cleanupCall
  | printAllDone
deriving DecidableEq

/-- How the body of the with-statement in main ends: setup raises, the
command loop raises an error that escapes it, or the loop completes
normally (quit or end of input). -/
inductive BodyOutcome
  | setupRaises (e : ErrKind)
  | loopRaises (e : ErrKind)
  | loopCompletes

/-- Embedding of the control flow of main (src/mail2pr/__init__.py lines 256
to 265): the try/except inside the with-statement catches any exception from
setup or the command loop and prints it; the context-manager exit then runs
cleanup, and the completion marker is printed last. -/
def mainTrace : BodyOutcome → List MainEvent
  | BodyOutcome.setupRaises _ =>
    [MainEvent.setupCall, MainEvent.printError, MainEvent.cleanupCall, MainEvent.printAllDone]
  | BodyOutcome.loopRaises _ =>
    [MainEvent.setupCall, MainEvent.cmdloopRun, MainEvent.printError, MainEvent.cleanupCall, MainEvent.printAllDone]
  | BodyOutcome.loopCompletes =>
    [MainEvent.setupCall, MainEvent.cmdloopRun, MainEvent.cleanupCall, MainEvent.printAllDone]

/-- main falls off its end and returns None in every outcome, so the process
exit status is zero. -/
def mainExitCode (_ : BodyOutcome) : Nat := 0

/-- Outcome of one mkdir call in create_cache_directory: success, the
FileExistsError the loop catches, or any other OSError, which is not
caught. -/
inductive MkdirOutcome
  | created
  | fileExists
  | otherError
deriving DecidableEq

/-- The name tried at a given counter in create_cache_directory: the bare
name first, then name-1, name-2, and so on. -/
def final_name (name : String) (counter : Nat) : String :=
  if counter = 0 then name else name ++ "-" ++ toString counter

/-- The directory path tried at a given counter: the cache root joined with
mail2pr and the disambiguated name. -/
def cache_path (root name : String) (counter : Nat) : String :=
  root ++ "/mail2pr/" ++ final_name name counter

/-- Result of create_cache_directory: a process-temporary directory, a
persistent directory path, or an uncaught error. -/
inductive CacheDirResult
  | tempDir
  | persistent (p : String)
  | raised
deriving DecidableEq

/-- The retry loop of create_cache_directory, given a mkdir oracle. The
Python loop is unbounded; fuel makes it total here, with none meaning the
fuel ran out before the loop finished. -/
def cacheLoop (mkdir : String → MkdirOutcome) (root name : String) : Nat → Nat → Option CacheDirResult
  | _, 0 => none
  | counter, fuel + 1 =>
    match mkdir (cache_path root name counter) with
    | MkdirOutcome.created => some (CacheDirResult.persistent (cache_path root name counter))
    | MkdirOutcome.fileExists => cacheLoop mkdir root name (counter + 1) fuel
    | MkdirOutcome.otherError => some CacheDirResult.raised

/-- Embedding of create_cache_directory (src/mail2pr/utils.py lines 43 to
71): the cache root is XDG_CACHE_HOME when set, else HOME/.cache when HOME
is set, else a process-temporary directory is returned; with a persistent
root the retry loop runs from counter zero. -/
def create_cache_directory (xdg home : Option String) (mkdir : String → MkdirOutcome) (fuel : Nat) (name : String) : Option CacheDirResult :=
  match xdg with
  | some root => cacheLoop mkdir root name 0 fuel
  | none =>
    match home with
    | none => some CacheDirResult.tempDir
    | some h => cacheLoop mkdir (h ++ "/.cache") name 0 fuel

/-- Oracle for a worktree-add failure: every tool invocation succeeds except
the worktree-add step. -/
def worktreeAddFailTool : Step → Bool :=
  fun s => !(s == Step.worktreeAdd)

/-- Oracle for the second run of create_cache_directory on the same name:
the bare path exists already, every other creation succeeds. -/
def mkdirSecondRun : String → MkdirOutcome :=
  fun p => if p = "root/mail2pr/patch" then MkdirOutcome.fileExists else MkdirOutcome.created

/-- One skipped iteration of the retry loop: a creation attempt that hits an
existing directory moves on to the next counter. -/
theorem cacheLoop_skip (mkdir : String → MkdirOutcome) (root name : String)
    (counter fuel : Nat)
    (h : mkdir (cache_path root name counter) = MkdirOutcome.fileExists) :
    cacheLoop mkdir root name counter (fuel + 1) = cacheLoop mkdir root name (counter + 1) fuel := by
  simp [cacheLoop, h]

/-- If the first n creation attempts hit existing directories and attempt n
succeeds, the retry loop returns the n-th disambiguated path. -/
theorem cacheLoop_success (mkdir : String → MkdirOutcome) (root name : String) :
    ∀ (n start fuel : Nat), n < fuel →
    (∀ k, k < n → mkdir (cache_path root name (start + k)) = MkdirOutcome.fileExists) →
    mkdir (cache_path root name (start + n)) = MkdirOutcome.created →
    cacheLoop mkdir root name start fuel =
      some (CacheDirResult.persistent (cache_path root name (start + n))) := by
  intro n
  induction n with
  | zero =>
    intro start fuel hf _ hn
    obtain ⟨f, rfl⟩ : ∃ f, fuel = f + 1 := ⟨fuel - 1, by omega⟩
    have hn0 : mkdir (cache_path root name start) = MkdirOutcome.created := by
      simpa using hn
    simp [cacheLoop, hn0]
  | succ n ih =>
    intro start fuel hf hprev hn
    obtain ⟨f, rfl⟩ : ∃ f, fuel = f + 1 := ⟨fuel - 1, by omega⟩
    have h0 : mkdir (cache_path root name start) = MkdirOutcome.fileExists := by
      simpa using hprev 0 (by omega)
    rw [cacheLoop_skip mkdir root name start f h0]
    have hn' : mkdir (cache_path root name (start + 1 + n)) = MkdirOutcome.created := by
      have e : start + 1 + n = start + (n + 1) := by omega
      rw [e]; exact hn
    have hres := ih (start + 1) f (by omega)
      (fun k hk => by
        have e : start + 1 + k = start + (k + 1) := by omega
        rw [e]; exact hprev (k + 1) (by omega)) hn'
    rw [hres]
    have e : start + 1 + n = start + (n + 1) := by omega
    rw [e]

/-- If the first n creation attempts hit existing directories and attempt n
fails for any other reason, the retry loop propagates the error. -/
theorem cacheLoop_error (mkdir : String → MkdirOutcome) (root name : String) :
    ∀ (n start fuel : Nat), n < fuel →
    (∀ k, k < n → mkdir (cache_path root name (start + k)) = MkdirOutcome.fileExists) →
    mkdir (cache_path root name (start + n)) = MkdirOutcome.otherError →
    cacheLoop mkdir root name start fuel = some CacheDirResult.raised := by
  intro n
  induction n with
  | zero =>
    intro start fuel hf _ hn
    obtain ⟨f, rfl⟩ : ∃ f, fuel = f + 1 := ⟨fuel - 1, by omega⟩
    have hn0 : mkdir (cache_path root name start) = MkdirOutcome.otherError := by
      simpa using hn
    simp [cacheLoop, hn0]
  | succ n ih =>
    intro start fuel hf hprev hn
    obtain ⟨f, rfl⟩ : ∃ f, fuel = f + 1 := ⟨fuel - 1, by omega⟩
    have h0 : mkdir (cache_path root name start) = MkdirOutcome.fileExists := by
      simpa using hprev 0 (by omega)
    rw [cacheLoop_skip mkdir root name start f h0]
    have hn' : mkdir (cache_path root name (start + 1 + n)) = MkdirOutcome.otherError := by
      have e : start + 1 + n = start + (n + 1) := by omega
      rw [e]; exact hn
    exact ih (start + 1) f (by omega)
      (fun k hk => by
        have e : start + 1 + k = start + (k + 1) := by omega
        rw [e]; exact hprev (k + 1) (by omega)) hn'

/-- C1: for every parsed mail, the public subject accessor returns
trim_subject (the spec's normalizeSubject) applied to the raw Subject
header: one leading case-insensitive Re: token and one leading bracketed tag
group stripped, trimming whitespace after each strip, single-pass, as the
concrete instances show (a second reply prefix and a second bracket group
remain). -/
theorem mail_subject_is_normalized_subject :
    (∀ m : Mail, m.subject = trim_subject m.subject_header) ∧
    trim_subject "Re: Re: fix" = "Re: fix" ∧
    trim_subject "[PATCH] [v2] fix" = "[v2] fix" ∧
    trim_subject " re: [PATCH 1/3] add feature " = "add feature" ∧
    trim_subject "rE: [PATCH] x" = "x" :=
  ⟨fun _ => rfl, by decide, by decide, by decide, by decide⟩

/-- C2 (code evaluated at the failing input): the source calls lstrip with
the three-character string Re:, which Python reads as a character set, so
the leading R and e of a subject that does not begin with the full Re: token
are stripped anyway, contradicting the claim that such subjects pass
unchanged. -/
theorem slugify_lstrip_is_charset_not_token :
    slugify_subject "Remove trailing whitespace" = "move-trailing-whitespace" ∧
    slugify_subject "Remove trailing whitespace" ≠ "Remove-trailing-whitespace" :=
  ⟨by decide, by decide⟩

/-- C3 (code evaluated at the failing input): when only the worktree-add
step fails, setup raises GitFetchFailed — the except clause of the
worktree-add step re-raises the fetch error kind — not the distinct
GitWorktreeAddFailed kind the claim requires. -/
theorem setup_worktree_add_failure_raises_fetch_kind :
    Worktree.setup worktreeAddFailTool =
      ([Step.fetch, Step.branch, Step.worktreeAdd], some ErrKind.GitFetchFailed) ∧
    ErrKind.GitFetchFailed ≠ ErrKind.GitWorktreeAddFailed :=
  ⟨by decide, by decide⟩

/-- C4 (code evaluated at the failing input): slugify_subject is not
idempotent. The slug of the subject consisting of a bracket group followed
by the two letters R and e is that two-letter string, and a second
application strips those letters (lstrip with a character-set argument) and
returns the empty string. -/
theorem slugify_not_idempotent :
    slugify_subject "[x]Re" = "Re" ∧
    slugify_subject (slugify_subject "[x]Re") = "" ∧
    slugify_subject (slugify_subject "[x]Re") ≠ slugify_subject "[x]Re" :=
  ⟨by decide, by decide, by decide⟩

/-- C5: if the fetch step fails, setup raises GitFetchFailed specifically (a
kind distinct from the unwrapped tool error), only the fetch invocation ran,
the patch-apply invocation is never reached; and for every oracle the
invoked steps are an initial segment of fetch, branch, worktree-add,
patch-apply in that order. -/
theorem setup_fetch_failure_short_circuits (tool : Step → Bool)
    (h : tool Step.fetch = false) :
    Worktree.setup tool = ([Step.fetch], some ErrKind.GitFetchFailed) ∧
    ErrKind.GitFetchFailed ≠ ErrKind.ToolError ∧
    Step.patchApply ∉ (Worktree.setup tool).1 ∧
    ∀ t : Step → Bool, ∃ n, (Worktree.setup t).1 =
      List.take n [Step.fetch, Step.branch, Step.worktreeAdd, Step.patchApply] := by
  have hs : Worktree.setup tool = ([Step.fetch], some ErrKind.GitFetchFailed) := by
    simp [Worktree.setup, h]
  refine ⟨hs, by decide, ?_, ?_⟩
  · rw [hs]; decide
  · intro t
    by_cases h1 : t Step.fetch = false
    · exact ⟨1, by simp [Worktree.setup, h1]⟩
    · by_cases h2 : t Step.branch = false
      · exact ⟨2, by simp [Worktree.setup, h1, h2]⟩
      · by_cases h3 : t Step.worktreeAdd = false
        · exact ⟨3, by simp [Worktree.setup, h1, h2, h3]⟩
        · by_cases h4 : t Step.patchApply = false
          · exact ⟨4, by simp [Worktree.setup, h1, h2, h3, h4]⟩
          · exact ⟨4, by simp [Worktree.setup, h1, h2, h3, h4]⟩

/-- Witness for C5 at the all-failing oracle. -/
theorem setup_fetch_failure_short_circuits_witness :
    Worktree.setup (fun _ => false) = ([Step.fetch], some ErrKind.GitFetchFailed) :=
  (setup_fetch_failure_short_circuits (fun _ => false) rfl).1

/-- C6: on every exit path of a constructed session — setup raising, the
command loop completing, or a command error caught at top level — the
cleanup call appears exactly once in the trace of main, and cleanup removes
the scratch directory recursively and then prunes stale worktree
registrations, in that order. -/
theorem cleanup_runs_exactly_once :
    ∀ o : BodyOutcome,
      (mainTrace o).count MainEvent.cleanupCall = 1 ∧
      Worktree.cleanup = [CleanupAction.rmtreeScratch, CleanupAction.worktreePrune] := by
  intro o
  cases o <;> exact ⟨rfl, rfl⟩

/-- C7: slugify_subject maps the concrete inputs of the spec's test table to
exactly the stated outputs, with non-ASCII characters replaced by hyphens
and merged rather than preserved. -/
theorem slugify_test_table :
    slugify_subject " whitespaces " = "whitespaces" ∧
    slugify_subject "/*%-funny*/" = "funny" ∧
    slugify_subject "[PATCH] something: init at 1.3.3.7" = "something-init-at-1.3.3.7" ∧
    slugify_subject "Re: [PATCHv2] add some amazing feature 👾" = "add-some-amazing-feature" :=
  ⟨by decide, by decide, by decide, by decide⟩

/-- C8: with a persistent cache root configured, create_cache_directory
returns the first path of the sequence root/mail2pr/name, name-1, name-2,
and so on whose creation succeeds, retrying only on already-exists errors,
and any other creation error propagates; in particular the n-th attempted
path is the name suffixed with the counter, so two successive resolutions of
the same name yield the bare path and then the path suffixed with 1. -/
theorem create_cache_directory_first_success (root name : String)
    (home : Option String) (mkdir : String → MkdirOutcome) (n fuel : Nat)
    (hf : n < fuel)
    (hprev : ∀ k, k < n → mkdir (cache_path root name k) = MkdirOutcome.fileExists) :
    (mkdir (cache_path root name n) = MkdirOutcome.created →
      create_cache_directory (some root) home mkdir fuel name =
        some (CacheDirResult.persistent (cache_path root name n))) ∧
    (mkdir (cache_path root name n) = MkdirOutcome.otherError →
      create_cache_directory (some root) home mkdir fuel name = some CacheDirResult.raised) := by
  constructor <;> intro hn
  · have h := cacheLoop_success mkdir root name n 0 fuel hf
      (fun k hk => by simpa using hprev k hk) (by simpa using hn)
    simpa [create_cache_directory] using h
  · have h := cacheLoop_error mkdir root name n 0 fuel hf
      (fun k hk => by simpa using hprev k hk) (by simpa using hn)
    simpa [create_cache_directory] using h

/-- Witness for C8: a second resolution of the name patch under the root
root, where the bare path already exists, creates the path suffixed with
1. -/
theorem create_cache_directory_first_success_witness :
    create_cache_directory (some "root") none mkdirSecondRun 5 "patch" =
      some (CacheDirResult.persistent "root/mail2pr/patch-1") := by
  have h := (create_cache_directory_first_success "root" "patch" none mkdirSecondRun 1 5
    (by omega)
    (fun k hk => by
      have hk0 : k = 0 := by omega
      subst hk0
      decide)).1 (by decide)
  rw [show cache_path "root" "patch" 1 = "root/mail2pr/patch-1" from by decide] at h
  exact h

/-- C9: if setup raises, main catches the exception at top level, prints it,
never enters the interactive command loop, still prints the completion
marker last, and the process exits with status zero. -/
theorem main_setup_failure_prints_and_exits_zero :
    ∀ e : ErrKind,
      mainTrace (BodyOutcome.setupRaises e) =
        [MainEvent.setupCall, MainEvent.printError, MainEvent.cleanupCall, MainEvent.printAllDone] ∧
      MainEvent.cmdloopRun ∉ mainTrace (BodyOutcome.setupRaises e) ∧
      (mainTrace (BodyOutcome.setupRaises e)).getLast? = some MainEvent.printAllDone ∧
      mainExitCode (BodyOutcome.setupRaises e) = 0 := by
  intro e
  refine ⟨rfl, ?_, rfl, rfl⟩
  show MainEvent.cmdloopRun ∉
    ([MainEvent.setupCall, MainEvent.printError, MainEvent.cleanupCall,
      MainEvent.printAllDone] : List MainEvent)
  decide

/-- C10: non-empty, non-whitespace-only subjects can slugify to the empty
string without any error, fallback or rejection, and the derived branch name
then degenerates to the bare prefix. -/
theorem slugify_empty_slug_degenerate_branch :
    slugify_subject "Re:" = "" ∧
    slugify_subject "👾" = "" ∧
    slugify_subject "---" = "" ∧
    (Mail.mk "Re:").slug = "" ∧
    branch_name (Mail.mk "Re:") = "ml2pr/" ∧
    branch_name (Mail.mk "👾") = "ml2pr/" :=
  ⟨by decide, by decide, by decide, by decide, by decide, by decide⟩

end Mail2PR
